import Mathlib

/-!
Shallow embedding of the python-arangodb client library
(src/arangodb/query.py, meta.py, cursor.py, db.py) in Lean 4.

The Python code is Python 2.  Relevant semantic points that the embedding
has to reflect faithfully:

* `dict` keys are compared by `__hash__` first.  `Expression.__eq__` is
  overloaded to build `Operator` nodes and no `__hash__` is defined, so in
  Python 2 the default id-based hash applies: the per-type dedup registry
  of `Expression.assemble` (an `OrderedDict`) therefore keys expression
  nodes by object identity, never by wrapped-value equality.  We model
  object identity of `Value` and `Collection` nodes with an explicit
  numeric id carried by the node.
* Non-expression literals appearing inside a `Chain` are wrapped into
  fresh `Value` instances by `Value.iter_fixed` each time the chain is
  iterated; such wrap occurrences are pairwise distinct objects.  We model
  them with a counter threaded through traversal.
* Python dicts are modelled as association lists with distinct keys;
  `dict.update` / item assignment is `dictSet` below (replace in place or
  append).
-/

namespace ArangoDB

/-- Python literal values that can be wrapped by `Value` or stored in a
document field. -/
inductive Val where
  | str (s : String)
  | int (n : Int)
  | bool (b : Bool)
  | null
deriving DecidableEq, Repr

/-- Python exceptions raised by the modelled code paths. -/
inductive PyErr where
  | typeError (msg : String)
  | valueError (msg : String)
deriving DecidableEq, Repr

/-- First-match lookup in an association list: Python `d[k]` / `k in d`
for a dict represented with distinct keys. -/
def lookupD {κ α : Type} [DecidableEq κ] : List (κ × α) → κ → Option α
  | [], _ => none
  | p :: rest, k => if p.1 = k then some p.2 else lookupD rest k

/-- Python `k in d`. -/
def hasKey {κ α : Type} [DecidableEq κ] (m : List (κ × α)) (k : κ) : Bool :=
  (lookupD m k).isSome

/-- Python dict item assignment `d[k] = v`: overwrite in place if the key
exists, otherwise append. -/
def dictSet {κ α : Type} [DecidableEq κ]
    (m : List (κ × α)) (k : κ) (v : α) : List (κ × α) :=
  if hasKey m k then m.map (fun p => if p.1 = k then (k, v) else p)
  else m ++ [(k, v)]

/-- Python `dict(pairs)`: fold the pairs into a dict, last writer wins. -/
def dictCopy {κ α : Type} [DecidableEq κ] (m : List (κ × α)) : List (κ × α) :=
  m.foldl (fun acc p => dictSet acc p.1 p.2) []

/-- `Param.__call__` of query.py (lines 84-93): renders
`"{declare}{name}_{index}"` where `declare` is `"@"` when requested. -/
def paramRender (name : String) (index : Nat) (declare : Bool) : String :=
  (if declare then "@" else "") ++ name ++ "_" ++ toString index

/-- Identity key of a `Value` node inside one assembly: either the id of a
node the caller constructed (`Sum.inl`), or a fresh id handed out when
`Value.iter_fixed` wraps a raw literal during chain iteration
(`Sum.inr`). -/
def ValKey : Type := Nat ⊕ Nat

instance : DecidableEq ValKey := instDecidableEqSum

instance : Repr ValKey := instReprSum

/-- A leaf produced by traversing an expression tree: exactly the nodes on
which `assemble` calls `_get_term` / `_get_params`.  `Term`, `KeyWord`,
`Alias` and `AliasAttr` leaves ignore their dedup index and contribute no
bind parameters, so only their rendered text is kept; `Value` and
`Collection` leaves carry their identity for the per-type registry. -/
inductive Leaf where
  | termL (s : String)
  | valueL (key : ValKey) (v : Val)
  | collL (nid : Nat) (name : String)
deriving DecidableEq, Repr

/-- Expression trees of query.py restricted to the node classes the claims
exercise.  `chain` carries its separator already iterated to a leaf list:
every separator the library constructs (`Term(", ")`, `SPACE`,
`Chain((SPACE, AND, SPACE))`) is a fixed sequence of `Term`/`KeyWord`
singletons contributing no bind parameters, so its traversal is a constant
leaf sequence. -/
inductive Expr where
  | term (s : String)
  | value (nid : Nat) (v : Val)
  | rawLit (v : Val)
  | aliasE (name : String)
  | aliasAttr (parent : Expr) (field : String)
  | coll (nid : Nat) (name : String)
  | chain (exprs : List Expr) (sep : List Leaf)
  | andE (exprs : List Expr)
  | filterE (exprs : List Expr)
  | operator (a : Expr) (op : String) (b : Expr)
  | ret (arg : Expr)
  | crit (e : Expr) (desc : Bool)
  | sortE (exprs : List Expr)
  | limitE (offset : Option Int) (count : Int)
  | forE (al : Expr) (src : Expr)
deriving Repr

/-- `Alias._get_term` / `AliasAttr._get_term` (query.py lines 199-227):
an alias renders its name, an attribute access renders
`parent_term ++ "." ++ backtick-quoted field`.  The dedup index passed by
`assemble` is ignored by both. -/
def aliasTerm : Expr → String
  | .aliasE name => name
  | .aliasAttr parent field => aliasTerm parent ++ ".`" ++ field ++ "`"
  | _ => ""

/-- Traversal of `Chain((SPACE, AND, SPACE))`, the separator of `And` and
`Filter` (query.py lines 288-296). -/
def sepAND : List Leaf := [.termL " ", .termL "AND", .termL " "]

/-- Traversal of `Term(", ")`, the separator of `List` and `Sort`. -/
def sepComma : List Leaf := [.termL ", "]

mutual

/-- `Expression.__iter__` and its overrides: flattens a node to the leaf
sequence `assemble` consumes, threading the counter that hands fresh
identities to `Value` instances created by `Value.iter_fixed`. -/
def iterExpr : Expr → Nat → List Leaf × Nat
  | .term s, c => ([.termL s], c)
  | .value nid v, c => ([.valueL (Sum.inl nid) v], c)
  | .rawLit v, c => ([.valueL (Sum.inr c) v], c + 1)
  | .aliasE name, c => ([.termL (aliasTerm (.aliasE name))], c)
  | .aliasAttr parent field, c => ([.termL (aliasTerm (.aliasAttr parent field))], c)
  | .coll nid name, c => ([.collL nid name], c)
  | .chain exprs sep, c => iterFixed exprs sep c
  | .andE exprs, c => iterFixed exprs sepAND c
  | .filterE exprs, c =>
      let r := iterFixed exprs sepAND c
      (Leaf.termL "FILTER" :: Leaf.termL " " :: r.1, r.2)
  | .operator a op b, c =>
      let ra := iterExpr a c
      let rb := iterExpr b ra.2
      (ra.1 ++ [Leaf.termL " ", Leaf.termL op, Leaf.termL " "] ++ rb.1, rb.2)
  | .ret arg, c =>
      let r := iterExpr arg c
      (Leaf.termL "RETURN" :: Leaf.termL " " :: r.1, r.2)
  | .crit e desc, c =>
      let r := iterExpr e c
      (r.1 ++ [Leaf.termL " ", Leaf.termL (if desc then "DESC" else "ASC")], r.2)
  | .sortE exprs, c =>
      let r := iterFixed exprs sepComma c
      (Leaf.termL "SORT" :: Leaf.termL " " :: r.1, r.2)
  | .limitE offset count, c =>
      match offset with
      | none => ([Leaf.termL "LIMIT", Leaf.termL " ", Leaf.termL (toString count)], c)
      | some o =>
          ([Leaf.termL "LIMIT", Leaf.termL " ", Leaf.termL (toString o),
            Leaf.termL ", ", Leaf.termL (toString count)], c)
  | .forE al src, c =>
      let ra := iterExpr al c
      let rs := iterExpr src ra.2
      (Leaf.termL "FOR" :: Leaf.termL " " :: ra.1
        ++ [Leaf.termL " ", Leaf.termL "IN", Leaf.termL " "] ++ rs.1, rs.2)

/-- `Chain.__iter__` (query.py lines 266-277): iterate each child in
order, interleaving the separator leaves between consecutive children. -/
def iterFixed : List Expr → List Leaf → Nat → List Leaf × Nat
  | [], _, c => ([], c)
  | [e], _, c => iterExpr e c
  | e :: rest, sep, c =>
      let r1 := iterExpr e c
      let r2 := iterFixed rest sep r1.2
      (r1.1 ++ sep ++ r2.1, r2.2)

end

/-- Per-type dedup registry of `Expression.assemble` (query.py lines
38-55), restricted to the two node types whose dedup index is observable
(`Value` and `Collection`); each list holds the identity keys in order of
first occurrence, so the index of a key is its position. -/
structure RegState where
  values : List ValKey
  colls : List Nat

/-- Position of the first occurrence of a key in a registry list. -/
def keyIndex {κ : Type} [DecidableEq κ] : List κ → κ → Option Nat
  | [], _ => none
  | a :: rest, k => if a = k then some 0 else (keyIndex rest k).map (· + 1)

/-- `register_expr` of `Expression.assemble`: the index assigned to a node
is the position of its first occurrence in its registry, appending on a
miss. -/
def register {κ : Type} [DecidableEq κ] (l : List κ) (k : κ) : List κ × Nat :=
  match keyIndex l k with
  | some i => (l, i)
  | none => (l ++ [k], l.length)

/-- `Value._get_term` (query.py line 108). -/
def valueGetTerm (index : Nat) : String := paramRender "value" index true

/-- `Value._get_params` (query.py lines 111-114). -/
def valueGetParams (v : Val) (index : Nat) : List (String × Val) :=
  [(paramRender "value" index false, v)]

/-- `Collection._get_term` (query.py lines 618-619). -/
def collGetTerm (index : Nat) : String := paramRender "@c" index true

/-- `Collection._get_params` (query.py lines 613-616): the bind key is the
bare parameter name `"@c_<i>"` and the value is the collection name. -/
def collGetParams (name : String) (index : Nat) : List (String × Val) :=
  [(paramRender "@c" index false, .str name)]

/-- One step of `assemble`: register the leaf and render its term and
parameter contribution at the assigned index. -/
def leafRender (st : RegState) : Leaf → RegState × String × List (String × Val)
  | .termL s => (st, s, [])
  | .valueL k v =>
      let r := register st.values k
      (⟨r.1, st.colls⟩, valueGetTerm r.2, valueGetParams v r.2)
  | .collL nid name =>
      let r := register st.colls nid
      (⟨st.values, r.1⟩, collGetTerm r.2, collGetParams name r.2)

/-- `Expression.assemble` over an already-flattened leaf sequence: the
list of `(term, params)` pairs in traversal order. -/
def assembleGo : RegState → List Leaf → List (String × List (String × Val))
  | _, [] => []
  | st, l :: rest =>
      let r := leafRender st l
      (r.2.1, r.2.2) :: assembleGo r.1 rest

/-- `Expression.query` parameter merge (query.py lines 62-64):
`joined_params.update(params)` for each contribution in order. -/
def joinParams (pss : List (List (String × Val))) : List (String × Val) :=
  pss.foldl (fun m ps => ps.foldl (fun acc kv => dictSet acc kv.1 kv.2) m) []

/-- `Expression.query` applied to a flattened leaf sequence: joined query
text and merged bind-parameter dict. -/
def runLeaves (leaves : List Leaf) : String × List (String × Val) :=
  let tps := assembleGo ⟨[], []⟩ leaves
  (String.join (tps.map Prod.fst), joinParams (tps.map Prod.snd))

/-- `Expression.query` on an expression tree. -/
def exprQuery (e : Expr) : String × List (String × Val) :=
  runLeaves (iterExpr e 0).1

/-- `Value.fix` (query.py lines 127-134): leave expressions alone, wrap a
raw literal into a fresh `Value` instance with the given object id. -/
def valueFix (fresh : Nat) : Expr ⊕ Val → Expr
  | .inl e => e
  | .inr v => .value fresh v

/-- `Operator.__init__` (query.py lines 499-510): both operands are
`Value.fix`ed at construction time; the node then behaves as
`Chain((a, op, b), sep=SPACE)`.  `na` and `nb` are the object ids of the
`Value` instances created when an operand is a raw literal. -/
def mkOperator (a : Expr ⊕ Val) (op : String) (b : Expr ⊕ Val)
    (na nb : Nat) : Expr :=
  .operator (valueFix na a) op (valueFix nb b)

/-- State of a `Query` object (query.py lines 660-674): the `For` clauses,
the children of its `Filter` and `Sort` containers, an optional `Limit`,
and the optional action clause (`None` when the query was constructed
without one and `action(...)` was never called). -/
structure QueryS where
  fors : List (Expr × Expr)
  filters : List Expr
  sorts : List Expr
  lim : Option (Option Int × Int)
  action : Option Expr

/-- `Query.__iter__` (query.py lines 704-725): the `For` clauses
back-to-back, then the `FILTER`, `SORT` and `LIMIT` sections when
non-empty, then a space and the action clause.  When `action_expr` is
`None`, Python raises `TypeError` on `for expr in self.action_expr` after
the preceding terms were yielded; since `query()` exhausts the generator
via `list(...)`, the whole assembly raises and no text is returned. -/
def iterQuery (q : QueryS) (c : Nat) : Except PyErr (List Leaf × Nat) :=
  let rf := q.fors.foldl
    (fun (acc : List Leaf × Nat) p =>
      let r := iterExpr (.forE p.1 p.2) acc.2
      (acc.1 ++ r.1, r.2)) ([], c)
  let rfil :=
    if q.filters.isEmpty then rf
    else
      let r := iterExpr (.filterE q.filters) rf.2
      (rf.1 ++ Leaf.termL " " :: r.1, r.2)
  let rsort :=
    if q.sorts.isEmpty then rfil
    else
      let r := iterExpr (.sortE q.sorts) rfil.2
      (rfil.1 ++ Leaf.termL " " :: r.1, r.2)
  let rlim :=
    match q.lim with
    | none => rsort
    | some l =>
        let r := iterExpr (.limitE l.1 l.2) rsort.2
        (rsort.1 ++ Leaf.termL " " :: r.1, r.2)
  match q.action with
  | none => .error (.typeError "NoneType object is not iterable")
  | some a =>
      let r := iterExpr a rlim.2
      .ok (rlim.1 ++ Leaf.termL " " :: r.1, r.2)

/-- `Query.query()`: assemble the iterated leaves, or propagate the
exception raised during iteration. -/
def queryQuery (q : QueryS) : Except PyErr (String × List (String × Val)) :=
  (iterQuery q 0).map (fun r => runLeaves r.1)

/-- One batch of a cursor response as returned by the transport stub for
the create-cursor or continue-cursor call: the `result` record list, the
`hasMore` flag and the server-side cursor `id`. -/
structure Batch where
  result : List Val
  hasMore : Bool
  id : String

/-- `Cursor.iter_result` (cursor.py lines 55-70) against a transport stub:
`first` is the create-cursor response and `rest` the successive
continue-cursor responses.  Returns the yielded records together with the
number of continue-cursor (`pursue`) calls issued, or `none` when the loop
requests a batch the stub cannot provide (a transport failure).  The loop:
while the current `result` is non-empty, yield its records; stop when
`hasMore` is false; otherwise fetch the next batch. -/
def iterResult : Batch → List Batch → Option (List Val × Nat)
  | b, rest =>
    if b.result.isEmpty then some ([], 0)
    else if b.hasMore then
      match rest with
      | [] => none
      | b2 :: rest2 => (iterResult b2 rest2).map (fun r => (b.result ++ r.1, r.2 + 1))
    else some (b.result, 0)

/-- Documents are Python dicts from field name to value. -/
def Doc : Type := List (String × Val)

instance : DecidableEq Doc := inferInstanceAs (DecidableEq (List (String × Val)))

instance : Repr Doc := inferInstanceAs (Repr (List (String × Val)))

/-- Python `str.split` on the slash character, on the character list of
the string: splits at every occurrence, keeping empty groups. -/
def splitSlash : List Char → List (List Char)
  | [] => [[]]
  | ch :: rest =>
    let r := splitSlash rest
    if ch = '/' then [] :: r
    else
      match r with
      | [] => [[ch]]
      | g :: gs => (ch :: g) :: gs

/-- Python `s.split("/")` as a list of strings. -/
def pySplit (s : String) : List String :=
  (splitSlash s.data).map (fun l => ⟨l⟩)

/-- `MetaDocumentBase._polymorph` (meta.py lines 125-138): require an
`_id` field containing a slash, split it into `collection/key` (exactly
two parts, otherwise the tuple unpacking raises `ValueError`), look the
collection up in the registry and construct the registered type from the
record.  Types are abstracted to numeric identifiers; constructing the
instance copies the record dict. -/
def polymorph (documents : List (String × Nat)) (dct : Doc) :
    Except PyErr (Nat × Doc) :=
  match lookupD dct "_id" with
  | some (Val.str s) =>
      if s.data.contains '/' then
        match pySplit s with
        | [collection, _] =>
            match lookupD documents collection with
            | some t => .ok (t, dictCopy dct)
            | none => .error (.typeError "Unknown document type!")
        | _ => .error (.valueError "too many values to unpack")
      else .error (.typeError "Cannot infer document type!")
  | some _ => .error (.typeError "argument of type is not iterable")
  | none => .error (.typeError "Cannot infer document type!")

/-- Registry state of `MetaDocumentBase` (meta.py lines 64-68): the root
type excluded from collection lookup, and the insertion-ordered mapping
from collection name to registered type. -/
structure Registry where
  base : Option Nat
  documents : List (String × Nat)

/-- `MetaDocumentBase._register_class` (meta.py lines 89-104), which the
metaclass `__new__` runs at class-declaration time: the first class
becomes the root; a later class whose collection name is already mapped
raises `TypeError` before any mutation; otherwise the class is appended
under its collection name.  Returns the (possibly updated) registry and
the raised error, if any. -/
def registerClass (st : Registry) (cls : Nat) (collName : String) :
    Registry × Option PyErr :=
  match st.base with
  | none => (⟨some cls, st.documents⟩, none)
  | some _ =>
      if hasKey st.documents collName then
        (st, some (.typeError "A collection with the same name is already registered"))
      else (⟨st.base, st.documents ++ [(collName, cls)]⟩, none)

/-- A transport call that the persistence layer issues. -/
inductive ApiCall where
  | replaceDoc (doc : Doc) (id : Val)
  | createDoc (collection : String) (doc : Doc)
  | createEdge (collection : String) (src dst : Val) (doc : Doc)
deriving DecidableEq, Repr

/-- `Edge._create` (db.py lines 321-334): raise `TypeError` when the
serialized document lacks `_from` or `_to`, before the create-edge API
call; otherwise issue the call with both endpoint ids. -/
def edgeCreate (collection : String) (doc : Doc) : Except PyErr ApiCall :=
  if hasKey doc "_from" = false ∨ hasKey doc "_to" = false then
    .error (.typeError
      "You must create an edge ether by calling init with _from and _to args or an appropriate dict!")
  else
    .ok (.createEdge collection
      ((lookupD doc "_from").getD .null) ((lookupD doc "_to").getD .null) doc)

/-- `BaseDocument.save` for an `Edge` (db.py lines 236-252): serialize
(a dict copy, there being no custom serializer), then replace when the
document already has an `_id`, else create via `Edge._create`.  Returns
the list of transport calls issued and the raised error, if any; on the
`Edge._create` precondition failure the call list is empty because the
raise happens before `cls.api.create`. -/
def edgeSave (collection : String) (d : Doc) : List ApiCall × Option PyErr :=
  let serialized := dictCopy d
  if hasKey d "_id" then
    ([.replaceDoc serialized ((lookupD d "_id").getD .null)], none)
  else
    match edgeCreate collection serialized with
    | .ok call => ([call], none)
    | .error e => ([], some e)

/-- One `Alias`/`AliasAttr` node on the Python heap: its name and the heap
id of its parent (`none` for a root `Alias`). -/
structure AliasNode where
  fieldName : String
  parent : Option Nat
deriving DecidableEq, Repr

/-- Heap of alias nodes together with the per-object attribute cache that
`Alias.__getattr__` fills: `self.__dict__[name] = attr` (query.py lines
206-210), keyed by (parent id, field name). -/
structure AliasHeap where
  nodes : List AliasNode
  cache : List ((Nat × String) × Nat)

/-- Attribute access `a.f` on an alias node (query.py lines 206-210):
Python only calls `__getattr__` when the attribute is not found in the
instance dict, so a cached child is returned as the identical object;
otherwise a fresh `AliasAttr` is allocated and cached. -/
def aliasGetAttr (h : AliasHeap) (pid : Nat) (fld : String) :
    AliasHeap × Nat :=
  match lookupD h.cache (pid, fld) with
  | some cid => (h, cid)
  | none =>
      let cid := h.nodes.length
      (⟨h.nodes ++ [⟨fld, some pid⟩], h.cache ++ [((pid, fld), cid)]⟩, cid)

/-- `_get_term` of a heap alias node, with fuel bounding the parent-chain
depth: a root renders its name, an attribute node renders the parent term
followed by the backtick-quoted field name (query.py lines 224-227). -/
def aliasTermH : Nat → AliasHeap → Nat → String
  | 0, _, _ => ""
  | fuel + 1, h, i =>
    match h.nodes[i]? with
    | some node =>
        match node.parent with
        | none => node.fieldName
        | some p => aliasTermH fuel h p ++ ".`" ++ node.fieldName ++ "`"
    | none => ""

/-- The attribute cache of a heap is consistent: every cached child id
points at a node recording exactly that parent and field. -/
def AliasWF (h : AliasHeap) : Prop :=
  ∀ pf cid, lookupD h.cache pf = some cid →
    h.nodes[cid]? = some ⟨pf.2, some pf.1⟩

/-- A document or edge class as seen by `Collection.__init__`: it carries
its declared collection name. -/
structure DocClass where
  collectionName : String
deriving DecidableEq, Repr

/-- `Collection.__init__` (query.py lines 610-611): accept either a class
carrying `__collection_name__` or a plain collection name string. -/
def collectionInit : DocClass ⊕ String → String
  | .inl cls => cls.collectionName
  | .inr name => name

/-- A `Collection` expression node built the way the source builds it,
with its object identity. -/
def mkCollection (nid : Nat) (c : DocClass ⊕ String) : Expr :=
  .coll nid (collectionInit c)

theorem lookupD_append_none {κ α : Type} [DecidableEq κ]
    (m l : List (κ × α)) (k : κ) (h : lookupD m k = none) :
    lookupD (m ++ l) k = lookupD l k := by
  induction m with
  | nil => rfl
  | cons p rest ih =>
      simp only [lookupD] at h
      by_cases hp : p.1 = k
      · simp [hp] at h
      · simp only [List.cons_append, lookupD, if_neg hp] at ih ⊢
        simp only [if_neg hp] at h
        exact ih h

theorem lookupD_map_overwrite_none {κ α : Type} [DecidableEq κ]
    (m : List (κ × α)) (k : κ) (v : α) (k' : κ)
    (hnone : lookupD m k' = none) (h2 : ¬ k = k') :
    lookupD (m.map (fun p => if p.1 = k then (k, v) else p)) k' = none := by
  induction m with
  | nil => rfl
  | cons p rest ih =>
      simp only [lookupD] at hnone
      by_cases hp : p.1 = k'
      · simp [hp] at hnone
      · simp only [if_neg hp] at hnone
        by_cases hpk : p.1 = k
        · simp only [List.map_cons, if_pos hpk, lookupD, if_neg h2]
          exact ih hnone
        · simp only [List.map_cons, if_neg hpk, lookupD, if_neg hp]
          exact ih hnone

theorem hasKey_dictSet_false {κ α : Type} [DecidableEq κ]
    (m : List (κ × α)) (k : κ) (v : α) (k' : κ)
    (h1 : hasKey m k' = false) (h2 : k' ≠ k) :
    hasKey (dictSet m k v) k' = false := by
  have hnone : lookupD m k' = none := by
    revert h1
    unfold hasKey
    cases lookupD m k' <;> simp
  have h2' : ¬ k = k' := fun hc => h2 hc.symm
  unfold hasKey dictSet
  by_cases hk : hasKey m k
  · rw [if_pos hk, lookupD_map_overwrite_none m k v k' hnone h2']
    rfl
  · rw [if_neg hk, lookupD_append_none m _ k' hnone]
    simp [lookupD, if_neg h2']

theorem hasKey_foldl_dictSet_false {κ α : Type} [DecidableEq κ] (k : κ) :
    ∀ (d acc : List (κ × α)), hasKey d k = false → hasKey acc k = false →
      hasKey (d.foldl (fun m p => dictSet m p.1 p.2) acc) k = false := by
  intro d
  induction d with
  | nil => intro acc _ hacc; simpa using hacc
  | cons p rest ih =>
      intro acc h hacc
      simp only [hasKey, lookupD] at h
      by_cases hp : p.1 = k
      · simp [hp] at h
      · simp only [if_neg hp] at h
        simp only [List.foldl_cons]
        exact ih (dictSet acc p.1 p.2) h
          (hasKey_dictSet_false acc p.1 p.2 k hacc (fun hc => hp hc.symm))

theorem hasKey_dictCopy_false {κ α : Type} [DecidableEq κ]
    (d : List (κ × α)) (k : κ) (h : hasKey d k = false) :
    hasKey (dictCopy d) k = false := by
  unfold dictCopy
  exact hasKey_foldl_dictSet_false k d [] h (by rfl)

/-- Claim C1, counterexample.  The Python construction
`Filter(Alias("foo") == 1, Alias("bar") == 1)` creates two distinct
`Value` instances wrapping the equal literal `1` (ids 0 and 1 here).
Assembly gives the two occurrences the distinct bind names `value_0` and
`value_1` and the merged parameter map holds two entries, not one:
dedup keys the registry by object identity (the Python 2 id-based hash,
since `Expression.__eq__` is overloaded away), not by value equality.
This matches the expected output of `test_fast_query` in the repository,
where the literal `1` appears as `value_1`, `value_2` and `value_3`. -/
theorem c1_counterexample :
    exprQuery (.filterE [
        mkOperator (.inl (.aliasE "foo")) "==" (.inr (.int 1)) 0 0,
        mkOperator (.inl (.aliasE "bar")) "==" (.inr (.int 1)) 0 1]) =
      ("FILTER foo == @value_0 AND bar == @value_1",
        [("value_0", Val.int 1), ("value_1", Val.int 1)])
  ∧ (exprQuery (.filterE [
        mkOperator (.inl (.aliasE "foo")) "==" (.inr (.int 1)) 0 0,
        mkOperator (.inl (.aliasE "bar")) "==" (.inr (.int 1)) 0 1])).2.length ≠ 1 := by
  decide

/-- Claim C1, amended: bind-parameter dedup is by node identity, not by
value equality.  The same `Value` node instance yielded twice within one
assembly is assigned the same bind-parameter name, the rendered text uses
that one name twice, and the merged parameter map holds a single entry
for it; two distinct `Value` instances receive distinct successive names
even when the wrapped literals are equal (see the counterexample). -/
theorem c1_dedup_by_identity (nid : Nat) (v : Val) :
    exprQuery (.filterE [.value nid v, .value nid v]) =
      ("FILTER @value_0 AND @value_0", [("value_0", v)]) := by
  simp only [exprQuery, iterExpr, iterFixed, runLeaves, assembleGo, leafRender, register,
    keyIndex, joinParams, dictSet, hasKey, lookupD, valueGetTerm, valueGetParams,
    paramRender, sepAND]
  simp
  exact ⟨rfl, rfl⟩

/-- Claim C2: polymorphic resolution.  When the record has an `_id` field
of the form `collection/key` and the collection is registered,
`_polymorph` returns an instance of the registered type populated from
the record; when the `_id` field is absent, slash-free, or names an
unregistered collection, it raises a type-resolution `TypeError`. -/
theorem c2_polymorph_resolution (docs : List (String × Nat)) (dct : Doc)
    (s c k : String) (T : Nat) :
    (lookupD dct "_id" = some (.str s) → s.data.contains '/' = true →
      pySplit s = [c, k] → lookupD docs c = some T →
      polymorph docs dct = .ok (T, dictCopy dct))
  ∧ (lookupD dct "_id" = none →
      polymorph docs dct = .error (.typeError "Cannot infer document type!"))
  ∧ (lookupD dct "_id" = some (.str s) → s.data.contains '/' = false →
      polymorph docs dct = .error (.typeError "Cannot infer document type!"))
  ∧ (lookupD dct "_id" = some (.str s) → s.data.contains '/' = true →
      pySplit s = [c, k] → lookupD docs c = none →
      polymorph docs dct = .error (.typeError "Unknown document type!")) := by
  refine ⟨?_, ?_, ?_, ?_⟩
  · intro h1 h2 h3 h4
    simp at h2
    simp [polymorph, h1, h2, h3, h4]
  · intro h1
    simp [polymorph, h1]
  · intro h1 h2
    simp at h2
    simp [polymorph, h1, h2]
  · intro h1 h2 h3 h4
    simp at h2
    simp [polymorph, h1, h2, h3, h4]

/-- Witness for C2 at the registry `User ↦ 0, Order ↦ 1`: `User/42`
resolves to the `User` type populated from the record; a record without
`_id`, a slash-free `_id` and an unregistered collection all fail with a
type-resolution error. -/
theorem c2_polymorph_resolution_witness :
    polymorph [("User", 0), ("Order", 1)] [("_id", .str "User/42"), ("x", .int 1)]
      = .ok (0, [("_id", .str "User/42"), ("x", .int 1)])
  ∧ polymorph [("User", 0), ("Order", 1)] [("foo", .int 1)]
      = .error (.typeError "Cannot infer document type!")
  ∧ polymorph [("User", 0), ("Order", 1)] [("_id", .str "User")]
      = .error (.typeError "Cannot infer document type!")
  ∧ polymorph [("User", 0), ("Order", 1)] [("_id", .str "Unknown/1")]
      = .error (.typeError "Unknown document type!") := by
  refine ⟨?_, ?_, ?_, ?_⟩
  · have h := (c2_polymorph_resolution [("User", 0), ("Order", 1)]
      [("_id", .str "User/42"), ("x", .int 1)] "User/42" "User" "42" 0).1
      (by decide) (by decide) (by decide) (by decide)
    rw [h]
    rfl
  · exact (c2_polymorph_resolution [("User", 0), ("Order", 1)]
      [("foo", .int 1)] "" "" "" 0).2.1 (by decide)
  · exact (c2_polymorph_resolution [("User", 0), ("Order", 1)]
      [("_id", .str "User")] "User" "" "" 0).2.2.1 (by decide) (by decide)
  · exact (c2_polymorph_resolution [("User", 0), ("Order", 1)]
      [("_id", .str "Unknown/1")] "Unknown/1" "Unknown" "1" 0).2.2.2
      (by decide) (by decide) (by decide) (by decide)

/-- Claim C3: cursor pagination.  Given a transport stub whose
create-cursor response is a non-empty batch with `hasMore = true` and
whose continue-cursor response is a non-empty batch with
`hasMore = false`, `iter_result` yields exactly the records of the first
batch in order followed by the records of the second batch in order,
issues exactly one continue-cursor call, and terminates. -/
theorem c3_cursor_pagination (b0 b1 : Batch)
    (h0 : b0.result ≠ []) (hm : b0.hasMore = true)
    (h1 : b1.result ≠ []) (hn : b1.hasMore = false) :
    iterResult b0 [b1] = some (b0.result ++ b1.result, 1) := by
  have h0e : b0.result.isEmpty = false := by
    cases hres : b0.result with
    | nil => exact absurd hres h0
    | cons a t => rfl
  have h1e : b1.result.isEmpty = false := by
    cases hres : b1.result with
    | nil => exact absurd hres h1
    | cons a t => rfl
  simp [iterResult, h0e, hm, h1e, hn]

/-- Witness for C3: batches `[1, 2]` then `[3]`. -/
theorem c3_cursor_pagination_witness :
    iterResult ⟨[.int 1, .int 2], true, "c0"⟩ [⟨[.int 3], false, "c0"⟩]
      = some ([.int 1, .int 2, .int 3], 1) := by
  have h := c3_cursor_pagination ⟨[.int 1, .int 2], true, "c0"⟩
    ⟨[.int 3], false, "c0"⟩ (by decide) rfl (by decide) rfl
  simpa using h

/-- Claim C4, counterexample.  Assembling `Collection("bar")` renders the
term `@@c_0` but contributes the parameter-map entry under the key
`@c_0` (the bare bind name produced by `Param("@c")`), not under `c_0` as
the claim states; the map has no `c_0` key at all.  This matches the
expected `params == ... "@c_0": "bar" ...` of `test_query` in the
repository. -/
theorem c4_counterexample :
    exprQuery (mkCollection 0 (.inr "bar")) = ("@@c_0", [("@c_0", Val.str "bar")])
  ∧ lookupD (exprQuery (mkCollection 0 (.inr "bar"))).2 "c_0" = none := by
  decide

/-- Claim C4, amended: a `Collection` node built from a type (or name)
with declared collection name `s` renders at dedup index `n` as
`@@c_<n>` and contributes the parameter-map entry with key `@c_<n>`
mapped to the string `s`; end to end, `FOR foo IN Collection(cls) RETURN
foo` assembles to `FOR foo IN @@c_0 RETURN foo` with the parameter map
holding `@c_0 ↦ s`. -/
theorem c4_collection_bind (s : String) (n : Nat) :
    collGetTerm n = "@@c_" ++ toString n
  ∧ collGetParams s n = [("@c_" ++ toString n, Val.str s)]
  ∧ queryQuery ⟨[(.aliasE "foo", mkCollection 0 (.inl ⟨s⟩))], [], [], none,
      some (.ret (.aliasE "foo"))⟩
      = .ok ("FOR foo IN @@c_0 RETURN foo", [("@c_0", Val.str s)]) :=
  ⟨rfl, rfl, rfl⟩

/-- Claim C5: the concrete filter scenario.  With aliases `foo` and
`bar`, assembling `Filter(foo.field == "1", bar <= 1)` yields exactly the
text `FILTER foo.`field` == @value_0 AND bar <= @value_1` (the field path
backtick-quoted, the criteria joined by ` AND `, the literal operands
auto-wrapped into `Value` nodes by `Value.fix`) together with the
parameter map `value_0 ↦ "1", value_1 ↦ 1`. -/
theorem c5_filter_scenario :
    exprQuery (.filterE [
        mkOperator (.inl (.aliasAttr (.aliasE "foo") "field")) "==" (.inr (.str "1")) 0 0,
        mkOperator (.inl (.aliasE "bar")) "<=" (.inr (.int 1)) 0 1]) =
      ("FILTER foo.`field` == @value_0 AND bar <= @value_1",
        [("value_0", Val.str "1"), ("value_1", Val.int 1)]) := by
  decide

/-- Claim C6: edge save precondition.  Saving an `Edge` whose document
never had `_from` and `_to` set and has no `_id` raises the client-side
`TypeError` of `Edge._create` and the list of transport calls issued is
empty: the error precedes any create-edge API call. -/
theorem c6_edge_save_precondition (collection : String) (d : Doc)
    (hid : hasKey d "_id" = false) (hf : hasKey d "_from" = false)
    (_ht : hasKey d "_to" = false) :
    edgeSave collection d =
      ([], some (.typeError
        "You must create an edge ether by calling init with _from and _to args or an appropriate dict!")) := by
  have hf' : hasKey (dictCopy d) "_from" = false := hasKey_dictCopy_false d "_from" hf
  simp [edgeSave, hid, edgeCreate, hf']

/-- Witness for C6: a freshly constructed empty edge document. -/
theorem c6_edge_save_precondition_witness :
    edgeSave "SomeEdge" [] =
      ([], some (.typeError
        "You must create an edge ether by calling init with _from and _to args or an appropriate dict!")) :=
  c6_edge_save_precondition "SomeEdge" [] rfl rfl rfl

/-- Claim C7: duplicate collection registration.  When the root is
already set and a collection name is already registered to a first type,
registering a second type under the same name raises the `TypeError` at
declaration time and leaves the registry unchanged, still mapping the
name to the first type. -/
theorem c7_duplicate_registration (st : Registry) (b t1 t2 : Nat) (n : String)
    (hb : st.base = some b) (h1 : lookupD st.documents n = some t1) :
    registerClass st t2 n =
      (st, some (.typeError "A collection with the same name is already registered"))
  ∧ lookupD (registerClass st t2 n).1.documents n = some t1 := by
  have hk : hasKey st.documents n = true := by
    unfold hasKey
    rw [h1]
    rfl
  constructor
  · simp [registerClass, hb, hk]
  · simp [registerClass, hb, hk, h1]

/-- Witness for C7: root 0 registered, then type 1 under `User`;
registering type 2 under `User` fails and `User` still maps to 1. -/
theorem c7_duplicate_registration_witness :
    registerClass ⟨some 0, [("User", 1)]⟩ 2 "User" =
      (⟨some 0, [("User", 1)]⟩,
        some (.typeError "A collection with the same name is already registered"))
  ∧ lookupD (registerClass ⟨some 0, [("User", 1)]⟩ 2 "User").1.documents "User" = some 1 :=
  c7_duplicate_registration ⟨some 0, [("User", 1)]⟩ 0 1 2 "User" rfl (by decide)

/-- Claim C8: a `Query` whose action clause is unset (constructed without
one and never given one via `action(...)`) fails on assembly with the
`TypeError` raised by iterating `None`, and `query()` returns no query
text at all. -/
theorem c8_query_without_action (q : QueryS) (h : q.action = none) :
    queryQuery q = .error (.typeError "NoneType object is not iterable") := by
  simp [queryQuery, iterQuery, h, Except.map]

/-- Witness for C8: `Query(Alias("foo"), Collection("bar"))` with no
action. -/
theorem c8_query_without_action_witness :
    queryQuery ⟨[(.aliasE "foo", mkCollection 0 (.inr "bar"))], [], [], none, none⟩ =
      .error (.typeError "NoneType object is not iterable") :=
  c8_query_without_action ⟨[(.aliasE "foo", mkCollection 0 (.inr "bar"))], [], [], none, none⟩ rfl

/-- Claim C9: alias attribute access is memoized per (parent, field)
pair.  On any cache-consistent heap, accessing `a.f` twice returns the
identical node id with the heap unchanged by the second access, the node
records the field and parent, and it renders as the parent's term
followed by the backtick-quoted field name. -/
theorem c9_alias_attr_memoized (h : AliasHeap) (pid : Nat) (fld : String)
    (hwf : AliasWF h) :
    (aliasGetAttr (aliasGetAttr h pid fld).1 pid fld).1 = (aliasGetAttr h pid fld).1
  ∧ (aliasGetAttr (aliasGetAttr h pid fld).1 pid fld).2 = (aliasGetAttr h pid fld).2
  ∧ ((aliasGetAttr h pid fld).1.nodes)[(aliasGetAttr h pid fld).2]? = some ⟨fld, some pid⟩
  ∧ ∀ fuel, aliasTermH (fuel + 1) (aliasGetAttr h pid fld).1 (aliasGetAttr h pid fld).2
      = aliasTermH fuel (aliasGetAttr h pid fld).1 pid ++ ".`" ++ fld ++ "`" := by
  cases hc : lookupD h.cache (pid, fld) with
  | some cid =>
      have hga : aliasGetAttr h pid fld = (h, cid) := by
        unfold aliasGetAttr
        rw [hc]
      have hnode := hwf (pid, fld) cid hc
      refine ⟨?_, ?_, ?_, ?_⟩
      · simp [hga]
      · simp [hga]
      · rw [hga]
        exact hnode
      · intro fuel
        simp only [hga]
        simp [aliasTermH, hnode]
  | none =>
      have hga : aliasGetAttr h pid fld =
          (⟨h.nodes ++ [⟨fld, some pid⟩], h.cache ++ [((pid, fld), h.nodes.length)]⟩,
            h.nodes.length) := by
        unfold aliasGetAttr
        rw [hc]
      have hl2 : lookupD (h.cache ++ [((pid, fld), h.nodes.length)]) (pid, fld)
          = some h.nodes.length := by
        rw [lookupD_append_none _ _ _ hc]
        simp [lookupD]
      have hnode : (h.nodes ++ [(⟨fld, some pid⟩ : AliasNode)])[h.nodes.length]?
          = some ⟨fld, some pid⟩ := List.getElem?_concat_length _ _
      refine ⟨?_, ?_, ?_, ?_⟩
      · simp only [hga]
        unfold aliasGetAttr
        rw [hl2]
      · simp only [hga]
        unfold aliasGetAttr
        rw [hl2]
      · rw [hga]
        exact hnode
      · intro fuel
        simp only [hga]
        simp [aliasTermH, hnode]

/-- Witness for C9: the heap holding the single root alias `foo`,
accessing `foo.bar` twice. -/
theorem c9_alias_attr_memoized_witness :
    (aliasGetAttr (aliasGetAttr ⟨[⟨"foo", none⟩], []⟩ 0 "bar").1 0 "bar").2
      = (aliasGetAttr ⟨[⟨"foo", none⟩], []⟩ 0 "bar").2
  ∧ aliasTermH 2 (aliasGetAttr ⟨[⟨"foo", none⟩], []⟩ 0 "bar").1
      (aliasGetAttr ⟨[⟨"foo", none⟩], []⟩ 0 "bar").2
      = aliasTermH 1 (aliasGetAttr ⟨[⟨"foo", none⟩], []⟩ 0 "bar").1 0 ++ ".`" ++ "bar" ++ "`" := by
  have t := c9_alias_attr_memoized ⟨[⟨"foo", none⟩], []⟩ 0 "bar"
    (by
      intro pf cid hcc
      simp [lookupD] at hcc)
  exact ⟨t.2.1, t.2.2.2 1⟩

/-- Claim C10: an empty `result` batch stops the cursor loop at once.
When the create-cursor response carries an empty batch, `iter_result`
yields nothing and issues zero continue-cursor calls regardless of the
`hasMore` flag and of any batches the stub still holds; when a non-empty
first batch with `hasMore = true` is followed by an empty continue batch,
iteration stops after that single continue call, so records in any later
batches are never yielded. -/
theorem c10_empty_batch_terminates (b : Batch) (rest : List Batch)
    (hb : b.result = []) (b0 : Batch) (rest2 : List Batch)
    (h0 : b0.result ≠ []) (hm : b0.hasMore = true) :
    iterResult b rest = some ([], 0)
  ∧ iterResult b0 (b :: rest2) = some (b0.result, 1) := by
  have hbe : b.result.isEmpty = true := by
    rw [hb]
    rfl
  have h0e : b0.result.isEmpty = false := by
    cases hres : b0.result with
    | nil => exact absurd hres h0
    | cons a t => rfl
  have hempty : ∀ r, iterResult b r = some ([], 0) := by
    intro r
    unfold iterResult
    rw [if_pos hbe]
  constructor
  · exact hempty rest
  · have hstep : iterResult b0 (b :: rest2) =
        (iterResult b rest2).map (fun r => (b0.result ++ r.1, r.2 + 1)) := by
      conv_lhs => unfold iterResult
      rw [if_neg (by simp [h0e]), if_pos hm]
    rw [hstep, hempty rest2]
    simp

/-- Witness for C10: an empty first batch with `hasMore = true` and a
stubbed later batch that is never requested; and a non-empty first batch
followed by an empty batch with a further batch that is never yielded. -/
theorem c10_empty_batch_terminates_witness :
    iterResult ⟨[], true, "c0"⟩ [⟨[.int 9], false, "c0"⟩] = some ([], 0)
  ∧ iterResult ⟨[.int 1], true, "c0"⟩ [⟨[], true, "c0"⟩, ⟨[.int 9], false, "c0"⟩]
      = some ([.int 1], 1) := by
  have t := c10_empty_batch_terminates ⟨[], true, "c0"⟩ [⟨[.int 9], false, "c0"⟩]
    rfl ⟨[.int 1], true, "c0"⟩ [⟨[.int 9], false, "c0"⟩] (by decide) rfl
  exact ⟨t.1, t.2⟩

end ArangoDB
